import Mathlib

/-!
Verification development for the globe-weather resolution pipeline
(`src/app.py`).  The Python code is shallowly embedded: every remote HTTP
call is modelled by an explicit environment value describing the provider's
response (request exception, non-ok status, or a parsed JSON payload), and
the request handlers become pure Lean functions over those environments.
Python `None` / missing JSON fields are `Option`; Python truthiness of
strings is `s ≠ ""` on `Option String`.  Debug-only output fields
(`debug_source`, `debug_coordinates`, ...) are omitted from the records.
-/

/-! ## Python string / value primitives -/

/-- Python truthiness of an optional string (`None` and `""` are falsy). -/
def pyTruthyS : Option String → Bool
  | none => false
  | some s => s ≠ ""

/-- Python `a or b` on two optional strings: the first operand when truthy,
otherwise the second operand unchanged. -/
def pyOrOpt (a b : Option String) : Option String :=
  if pyTruthyS a then a else b

/-- Python `a or b or q` collapsing to a plain string default. -/
def pyOrStr (a : Option String) (q : String) : String :=
  match a with
  | some s => if s ≠ "" then s else q
  | none => q

/-- First truthy value in a chain of `if x: ... elif y: ...` appends. -/
def firstTruthy : List (Option String) → Option String
  | [] => none
  | a :: rest => if pyTruthyS a then a else firstTruthy rest

/-- The singleton-or-empty list appended by an `if/elif` chain that appends
the first truthy candidate. -/
def collectFirst (opts : List (Option String)) : List String :=
  match firstTruthy opts with
  | some v => [v]
  | none => []

/-- Python `dict.fromkeys(xs)`: drop duplicates, keeping first occurrences. -/
def dedupAux (seen : List String) : List String → List String
  | [] => []
  | x :: xs => if x ∈ seen then dedupAux seen xs else x :: dedupAux (x :: seen) xs

/-- `", ".join(xs)` -/
def joinComma : List String → String
  | [] => ""
  | [x] => x
  | x :: xs => x ++ ", " ++ joinComma xs

/-- Drop the leading whitespace of a character list. -/
def dropWs : List Char → List Char
  | [] => []
  | c :: rest => if c.isWhitespace then dropWs rest else c :: rest

/-- Python `str.strip()` on the character list: drop whitespace at both ends. -/
def stripWs (l : List Char) : List Char :=
  (dropWs (dropWs l).reverse).reverse

/-- Python `str.strip()`. -/
def pyStrip (s : String) : String := ⟨stripWs s.data⟩

/-- Lowercase (ASCII), modelling Python `str.lower()` on the inputs at hand. -/
def strLower (s : String) : String := ⟨s.data.map Char.toLower⟩

/-- Does `p` match at the head of `l`? -/
def headMatch : List Char → List Char → Bool
  | [], _ => true
  | _ :: _, [] => false
  | a :: p, b :: l => a == b && headMatch p l

/-- Does `p` occur contiguously inside `l`? (Python `p in l` on strings.) -/
def occursIn (p : List Char) : List Char → Bool
  | [] => headMatch p []
  | b :: t => headMatch p (b :: t) || occursIn p t

/-- Python substring test `pat in s`. -/
def strHasSub (s pat : String) : Bool := occursIn pat.data s.data

/-- Python `"," in s`-style membership of a single character. -/
def strContainsChar (s : String) (c : Char) : Bool := s.data.contains c

/-- Python `s.endswith(suf)`. -/
def strEndsWith (s suf : String) : Bool :=
  headMatch suf.data.reverse s.data.reverse

/-- Worker for whitespace splitting: Python `s.split()` (no empties). -/
def splitWsGo : List Char → List Char → List String
  | [], cur => if cur = [] then [] else [⟨cur.reverse⟩]
  | c :: rest, cur =>
    if c.isWhitespace then
      if cur = [] then splitWsGo rest [] else ⟨cur.reverse⟩ :: splitWsGo rest []
    else splitWsGo rest (c :: cur)

/-- Python `s.split()`: split on whitespace runs, dropping empty tokens. -/
def pySplitWs (s : String) : List String := splitWsGo s.data []

/-- Worker for comma splitting: Python `s.split(",")` (keeps empties). -/
def splitCommaGo : List Char → List Char → List String
  | [], cur => [⟨cur.reverse⟩]
  | c :: rest, cur =>
    if c = ',' then ⟨cur.reverse⟩ :: splitCommaGo rest []
    else splitCommaGo rest (c :: cur)

/-- Python `s.split(",")`. -/
def pySplitComma (s : String) : List String := splitCommaGo s.data []

/-- Decimal digit value of a character, if any. -/
def digitVal (c : Char) : Option Nat :=
  if '0' ≤ c ∧ c ≤ '9' then some (c.toNat - '0'.toNat) else none

/-- Parse a nonempty all-digit character list as a natural number. -/
def parseDigits : List Char → Nat → Option Nat
  | [], acc => some acc
  | c :: cs, acc =>
    match digitVal c with
    | some d => parseDigits cs (acc * 10 + d)
    | none => none

/-- Python `int(s)` on a string: strip whitespace, optional sign, digits;
`none` models the `ValueError`. -/
def pyIntOfString (s : String) : Option Int :=
  match stripWs s.data with
  | [] => none
  | '-' :: rest =>
    if rest = [] then none else (parseDigits rest 0).map (fun n => -(n : Int))
  | '+' :: rest =>
    if rest = [] then none else (parseDigits rest 0).map (fun n => (n : Int))
  | l => (parseDigits l 0).map (fun n => (n : Int))

/-- Decimal rendering of a natural number (Python `str(n)`). -/
def natDecimal (n : Nat) : String :=
  if n = 0 then "0" else ⟨((Nat.digits 10 n).map Nat.digitChar).reverse⟩

/-- Decimal rendering of an integer (Python `str(k)`). -/
def intDecimal : Int → String
  | Int.ofNat m => natDecimal m
  | Int.negSucc m => ⟨'-' :: (natDecimal (m + 1)).data⟩

/-! ## Weather classifier (`_get_weather_sound_type`, app.py lines 732-808) -/

/-- A JSON-ish Python value as far as the classifier needs it. -/
inductive PyVal
  | pnone
  | pint (n : Int)
  | pstr (s : String)
deriving DecidableEq

/-- The classifier's accepted input shapes: `None`/int/str directly, or a
dict (modelled as a key-value association list). -/
inductive WeatherArg
  | base (v : PyVal)
  | dict (entries : List (String × PyVal))
deriving DecidableEq

/-- `weather.get(k)`: `None` when the key is missing. -/
def dictGetV (d : List (String × PyVal)) (k : String) : PyVal :=
  (d.lookup k).getD PyVal.pnone

/-- `k in weather`. -/
def containsKey (d : List (String × PyVal)) (k : String) : Bool :=
  (d.lookup k).isSome

/-- Python truthiness of a `PyVal`. -/
def pyTruthyV : PyVal → Bool
  | PyVal.pnone => false
  | PyVal.pint n => n ≠ 0
  | PyVal.pstr s => s ≠ ""

/-- Python `a or b` on `PyVal`s. -/
def pyOrV (a b : PyVal) : PyVal := if pyTruthyV a then a else b

/-- Python `int(v)`: succeeds on ints and numeric strings, raises
(`none`) otherwise. -/
def pyIntCoe : PyVal → Option Int
  | PyVal.pnone => none
  | PyVal.pint n => some n
  | PyVal.pstr s => pyIntOfString s

/-- Python `str(v)`. -/
def pyStr : PyVal → String
  | PyVal.pnone => "None"
  | PyVal.pint n => intDecimal n
  | PyVal.pstr s => s

/-- Dict branch of `_get_weather_sound_type` (lines 740-753): extract an id
or code as an int, else fall back to `description or weather or ""`. -/
def extractFromDict (d : List (String × PyVal)) : PyVal :=
  let descr := pyOrV (pyOrV (dictGetV d "description") (dictGetV d "weather")) (PyVal.pstr "")
  if containsKey d "id" then
    match pyIntCoe (dictGetV d "id") with
    | some n => PyVal.pint n
    | none => descr
  else if containsKey d "weather_code" || containsKey d "code" then
    match pyIntCoe (pyOrV (dictGetV d "weather_code") (dictGetV d "code")) with
    | some n => PyVal.pint n
    | none => descr
  else descr

/-- Numeric range tables of the classifier (lines 759-781): OpenWeather ids
and WMO codes; `none` when the code belongs to no range of either scheme. -/
def soundOfCode (code : Int) : Option String :=
  if (200 ≤ code ∧ code ≤ 232) ∨ (95 ≤ code ∧ code ≤ 99) then some "storm"
  else if (300 ≤ code ∧ code ≤ 321) ∨ (51 ≤ code ∧ code ≤ 57) then some "rain"
  else if (500 ≤ code ∧ code ≤ 531) ∨ (61 ≤ code ∧ code ≤ 67) ∨ (80 ≤ code ∧ code ≤ 82) then
    some "rain"
  else if (600 ≤ code ∧ code ≤ 622) ∨ (71 ≤ code ∧ code ≤ 77) ∨ (85 ≤ code ∧ code ≤ 86) then
    some "snow"
  else if (701 ≤ code ∧ code ≤ 762) ∨ code = 45 ∨ code = 48 then some "fog"
  else if code = 0 ∨ code = 800 then some "sunny"
  else if (801 ≤ code ∧ code ≤ 804) ∨ (1 ≤ code ∧ code ≤ 3) then some "cloudy"
  else none

/-- `any of these substrings occurs in w` (an `or`-chain of `kw in w`). -/
def anyKw (w : String) (kws : List String) : Bool :=
  kws.any (fun k => strHasSub w k)

/-- Textual branch of the classifier (lines 785-808): lowercase, then keyword
substring matching in fixed priority order. -/
def textualSound (s : String) : String :=
  let w := strLower s
  if pyStrip w = "" then "ambient"
  else if anyKw w ["thunder", "storm", "tornado"] then "storm"
  else if anyKw w ["hail"] then "storm"
  else if anyKw w ["rain", "drizzle", "shower", "precipitation"] then "rain"
  else if anyKw w ["snow", "sleet", "blizzard"] then "snow"
  else if anyKw w ["fog", "mist", "haze", "smoke", "dust"] then "fog"
  else if anyKw w ["wind", "breezy", "gust"] then "wind"
  else if anyKw w ["clear", "sunny"] then "sunny"
  else if anyKw w ["cloud", "overcast", "broken", "scattered"] then "cloudy"
  else "ambient"

/-- `_get_weather_sound_type` (lines 732-808): `None` short-circuits to
ambient; dicts are reduced to an int or a description; an int is classified
by the range tables, everything else (including an int in no range, via
`str(...)`) by the textual keyword path. -/
def getWeatherSoundType (weather : WeatherArg) : String :=
  match weather with
  | WeatherArg.base PyVal.pnone => "ambient"
  | w =>
    let v : PyVal :=
      match w with
      | WeatherArg.dict d => extractFromDict d
      | WeatherArg.base b => b
    match pyIntCoe v with
    | some code =>
      match soundOfCode code with
      | some s => s
      | none => textualSound (pyStr v)
    | none => textualSound (pyStr v)

/-! ## Timezone resolution (`_get_timezone_and_localtime`, app.py lines 184-232) -/

/-- Outcome of the Open-Meteo timezone request: an exception, a non-ok
status, or a parsed body with its `timezone` and `utc_offset_seconds`
fields. -/
inductive TzProviderResult
  | failure
  | notOk
  | ok (timezone : Option String) (utc_offset_seconds : Option Int)

/-- Environment of the timezone resolver: the provider response, the
`zoneinfo` lookup (the current ISO local time in a named zone, `none` when
`ZoneInfo(tzname)` raises), and the current ISO local time under a fixed
UTC offset in seconds (`datetime.now(timezone(timedelta(seconds=off)))`,
consulted only for offsets the `timezone` constructor accepts). -/
structure TzEnv where
  provider : TzProviderResult
  zoneLocalTime : String → Option String
  fixedOffsetTime : Int → String

/-- Does `timezone(timedelta(seconds=off))` succeed?  The constructor
requires an offset strictly between -24 and +24 hours; outside that range
it raises `ValueError`, which the handler catches (advancing to the next
tier at line 218, or returning the all-null record at line 229). -/
def fixedOffsetValid (off : Int) : Bool :=
  decide (-86400 < off) && decide (off < 86400)

/-- The returned dict: keys `timezone`, `local_time`, `utc_offset_seconds`. -/
structure TimezoneInfo where
  timezone : Option String
  local_time : Option String
  utc_offset_seconds : Option Int
deriving DecidableEq

/-- `_get_timezone_and_localtime`: tier 1 uses the provider zone name with
`zoneinfo`; tier 2 uses the provider offset (an out-of-range offset raises
`ValueError`, caught at line 218, so control falls to the last resort); the
last resort uses the caller-supplied fallback offset (an out-of-range
offset raises inside the line-223 `try`, caught at 229, so everything is
null); otherwise everything is null. -/
def getTimezoneAndLocaltime (env : TzEnv) (fallback_offset_seconds : Option Int) :
    TimezoneInfo :=
  let lastResort : TimezoneInfo :=
    match fallback_offset_seconds with
    | some off =>
      if fixedOffsetValid off then ⟨none, some (env.fixedOffsetTime off), some off⟩
      else ⟨none, none, none⟩
    | none => ⟨none, none, none⟩
  match env.provider with
  | TzProviderResult.failure => lastResort
  | TzProviderResult.notOk => lastResort
  | TzProviderResult.ok tzname utc_off =>
    let tier2 : TimezoneInfo :=
      match utc_off with
      | some off =>
        if fixedOffsetValid off then ⟨none, some (env.fixedOffsetTime off), some off⟩
        else lastResort
      | none => lastResort
    match tzname with
    | some tn =>
      if tn ≠ "" then
        match env.zoneLocalTime tn with
        | some loc => ⟨some tn, some loc, utc_off⟩
        | none => tier2
      else tier2
    | none => tier2

/-- Did every provider-derived tier fail to produce a value (request failed,
non-ok status, or an ok body with no usable offset -- absent or rejected by
the `timezone` constructor -- and no workable zone name)? -/
def tzProviderFailed (env : TzEnv) : Bool :=
  match env.provider with
  | TzProviderResult.failure => true
  | TzProviderResult.notOk => true
  | TzProviderResult.ok tzname utc_off =>
    (match utc_off with
     | some off => !fixedOffsetValid off
     | none => true) &&
      (match tzname with
       | some tn => if tn ≠ "" then (env.zoneLocalTime tn).isNone else true
       | none => true)

/-- Did the caller-fallback tier fail to produce a value (no offset
supplied, or one the `timezone` constructor rejects)? -/
def tzFallbackFailed (fb : Option Int) : Bool :=
  match fb with
  | some off => !fixedOffsetValid off
  | none => true

/-! ## Weather resolution (`api_weather` and `_open_meteo_fallback`,
app.py lines 60-181 and 235-312) -/

/-- The fixed Open-Meteo code-to-text table (`_omap_weather_code_desc`,
lines 60-73). -/
def omapTable : List (Int × String) :=
  [(0, "clear sky"), (1, "mainly clear"), (2, "partly cloudy"), (3, "overcast"),
   (45, "fog"), (48, "depositing rime fog"),
   (51, "light drizzle"), (53, "moderate drizzle"), (55, "dense drizzle"),
   (56, "light freezing drizzle"), (57, "dense freezing drizzle"),
   (61, "slight rain"), (63, "moderate rain"), (65, "heavy rain"),
   (66, "light freezing rain"), (67, "heavy freezing rain"),
   (71, "slight snow"), (73, "moderate snow"), (75, "heavy snow"), (77, "snow grains"),
   (80, "slight rain showers"), (81, "moderate rain showers"), (82, "violent rain showers"),
   (85, "slight snow showers"), (86, "heavy snow showers"),
   (95, "thunderstorm"), (96, "thunderstorm with slight hail"),
   (99, "thunderstorm with heavy hail")]

/-- `_omap_weather_code_desc`: a missing code is looked up as -1; unmapped
codes yield the explicit default. -/
def omapWeatherCodeDesc (code : Option Int) : String :=
  (omapTable.lookup (code.getD (-1))).getD "weather unavailable"

/-- The address fields used by the Nominatim reverse block (lines 93-135);
`jname` is the payload's top-level `name` field. -/
structure NomRevJson where
  suburb : Option String
  neighbourhood : Option String
  quarter : Option String
  residential : Option String
  jname : Option String
  city : Option String
  town : Option String
  municipality : Option String
  state : Option String
  country_code : Option String
  country : Option String

/-- The Nominatim reverse request outcome: an exception (swallowed by the
inner `try`), a non-ok status, or an ok body. -/
inductive NomRevResult
  | failure
  | notOk
  | ok (nj : NomRevJson)

/-- Reverse label composition of the Nominatim block (lines 100-132):
first locality-level field, then city/town/municipality, then the state if
fewer than two parts were collected; deduplicate and join. -/
def nomExtract (r : NomRevResult) : Option String × Option String :=
  match r with
  | NomRevResult.failure => (none, none)
  | NomRevResult.notOk => (none, none)
  | NomRevResult.ok nj =>
    let p1 := collectFirst [nj.suburb, nj.neighbourhood, nj.quarter, nj.residential, nj.jname]
    let p2 := p1 ++ collectFirst [nj.city, nj.town, nj.municipality]
    let p3 :=
      match nj.state with
      | some st => if p2.length < 2 ∧ st ≠ "" then p2 ++ [st] else p2
      | none => p2
    let name := if p3 ≠ [] then some (joinComma (dedupAux [] p3)) else none
    (name, pyOrOpt nj.country_code nj.country)

/-- One result entry of the Open-Meteo reverse geocoding endpoint. -/
structure OMRevEntry where
  name : Option String
  admin1 : Option String
  admin2 : Option String
  admin3 : Option String
  country_code : Option String
  country : Option String

/-- The Open-Meteo reverse request outcome. -/
inductive OMRevResult
  | failure
  | notOk
  | ok (results : List OMRevEntry)

/-- The Open-Meteo reverse fallback block (lines 138-167), as an update of
the (name, country) pair left by the Nominatim block.  When the truthy
parts list is nonempty, the source evaluates `dict.fromkeys(parts)[:3]`,
which raises `TypeError` (a dict cannot be sliced); the surrounding
`except` swallows it, so neither name nor country is assigned.  Only the
empty-parts path reaches the assignments (with `lbl = None`). -/
def omRevUpdate (r : OMRevResult) (name country : Option String) :
    Option String × Option String :=
  match r with
  | OMRevResult.failure => (name, country)
  | OMRevResult.notOk => (name, country)
  | OMRevResult.ok [] => (name, country)
  | OMRevResult.ok (first :: _) =>
    let parts :=
      ([first.name, first.admin3, first.admin2, first.admin1].filterMap id).filter
        (fun p => p ≠ "")
    match parts with
    | [] => (none, pyOrOpt first.country_code first.country)
    | _ :: _ => (name, country)

/-- The `current` block of the Open-Meteo forecast response. -/
structure OMCurrent where
  weather_code : Option Int
  temperature_2m : Option ℚ
  relative_humidity_2m : Option ℚ
  wind_speed_10m : Option ℚ

/-- Environment of `_open_meteo_fallback`: the forecast call (an `error`
models any exception, including `raise_for_status`, which propagates to
the caller), and the two reverse-geocoding calls. -/
structure OMEnv where
  wx : Except Unit OMCurrent
  nominatim : NomRevResult
  omReverse : OMRevResult

/-- The weather record assembled by the handlers (tz fields merged in by
`out.update(tz_info)`); debug fields are omitted. -/
structure OutRecord where
  name : Option String
  coord : Option (ℚ × ℚ)
  weather : Option String
  temp_c : Option ℚ
  humidity : Option ℚ
  wind_speed : Option ℚ
  country : Option String
  timezone : Option String
  local_time : Option String
  utc_offset_seconds : Option Int
deriving DecidableEq

/-- `_open_meteo_fallback` (lines 76-181): forecast data plus reverse
geocoding; an exception from the forecast call propagates. -/
def openMeteoFallback (env : OMEnv) (lat lon : ℚ) : Except Unit OutRecord :=
  match env.wx with
  | Except.error e => Except.error e
  | Except.ok cur =>
    let nc := nomExtract env.nominatim
    let nc2 := if pyTruthyS nc.1 then nc else omRevUpdate env.omReverse nc.1 nc.2
    Except.ok
      { name := nc2.1, coord := some (lat, lon),
        weather := some (omapWeatherCodeDesc cur.weather_code),
        temp_c := cur.temperature_2m, humidity := cur.relative_humidity_2m,
        wind_speed := cur.wind_speed_10m, country := nc2.2,
        timezone := none, local_time := none, utc_offset_seconds := none }

/-- The OpenWeather payload as far as the handler reads it: the `weather`
field is the raw list (each item modelled by its `description`), so that
`payload.get("weather", [{}])[0]` can be reproduced, including the
`IndexError` on an empty list. -/
structure OWPayload where
  name : Option String
  weather : Option (List (Option String))
  coord : Option (ℚ × ℚ)
  temp : Option ℚ
  humidity : Option ℚ
  wind_speed : Option ℚ
  country : Option String
  timezone : Option Int

/-- The OpenWeather request outcome (`failure` models any exception in the
primary try-block). -/
inductive OWResult
  | failure
  | notOk
  | ok (payload : OWPayload)

/-- `payload.get("weather", [{}])[0].get("description")`: a missing key
defaults to `[{}]` whose head has no description; an empty list raises
`IndexError` (the `error` case, caught by the primary path's `except`). -/
def owDesc (p : OWPayload) : Except Unit (Option String) :=
  match p.weather with
  | none => Except.ok none
  | some [] => Except.error ()
  | some (d :: _) => Except.ok d

/-- The specificity test of lines 267 and 302: the query name wins when it
contains "sector" (lowercased), a comma, or more whitespace tokens than
the canonical name. -/
def prefersQuery (sn wn : String) : Bool :=
  strHasSub (strLower sn) "sector" || strContainsChar sn ',' ||
    decide ((pySplitWs sn).length > (pySplitWs wn).length)

/-- Name selection of the primary path (lines 260-270). -/
def disambiguateName (search_name weather_name : Option String) : Option String :=
  let final := if pyTruthyS search_name then search_name else weather_name
  match search_name, weather_name with
  | some sn, some wn =>
    if sn ≠ "" ∧ wn ≠ "" then
      if prefersQuery sn wn then some sn else some wn
    else final
  | _, _ => final

/-- Name override of the fallback path (lines 300-305): only rewrites the
record's name when the search name is truthy and the condition holds; the
token-count test is guarded by the truthiness of the existing name. -/
def applySearchNameFallback (search_name : Option String) (o : OutRecord) : OutRecord :=
  match search_name with
  | none => o
  | some sn =>
    if sn ≠ "" then
      if strHasSub (strLower sn) "sector" || strContainsChar sn ',' ||
          (match o.name with
           | some oname =>
             decide (oname ≠ "") && decide ((pySplitWs sn).length > (pySplitWs oname).length)
           | none => false) then
        { o with name := some sn }
      else o
    else o

/-- Environment of `api_weather`: the configured key, the OpenWeather call,
the Open-Meteo fallback environment and the timezone environment. -/
structure WeatherEnv where
  apiKey : String
  ow : OWResult
  om : OMEnv
  tz : TzEnv

/-- `payload.get("timezone")` of the primary payload, when one was used. -/
def owTzOffset : OWResult → Option Int
  | OWResult.ok p => p.timezone
  | _ => none

/-- `out.update(tz_info)`. -/
def mergeTz (o : OutRecord) (t : TimezoneInfo) : OutRecord :=
  { o with timezone := t.timezone, local_time := t.local_time,
           utc_offset_seconds := t.utc_offset_seconds }

/-- A handler outcome: a JSON record, or an error body with an HTTP status. -/
inductive ApiResult
  | ok (o : OutRecord)
  | error (msg : String) (status : Nat)
deriving DecidableEq

/-- The primary (OpenWeather) branch of `api_weather` (lines 248-288): the
record it would return, or `none` when the key is missing, the request
failed, the status was non-ok, or payload processing raised. -/
def primaryRecord (env : WeatherEnv) (search_name : Option String) : Option OutRecord :=
  if env.apiKey ≠ "" then
    match env.ow with
    | OWResult.ok payload =>
      match owDesc payload with
      | Except.error _ => none
      | Except.ok desc =>
        some { name := disambiguateName search_name payload.name,
               coord := payload.coord, weather := desc,
               temp_c := payload.temp, humidity := payload.humidity,
               wind_speed := payload.wind_speed, country := payload.country,
               timezone := none, local_time := none, utc_offset_seconds := none }
    | _ => none
  else none

/-- `api_weather` (lines 235-312): validate coordinates, try the primary
provider, then the Open-Meteo fallback; total failure of the fallback is
the 502 service-unavailable error. -/
def apiWeather (env : WeatherEnv) (lat lon : Option ℚ) (search_name : Option String) :
    ApiResult :=
  match lat, lon with
  | some la, some lo =>
    match primaryRecord env search_name with
    | some o =>
      ApiResult.ok (mergeTz o (getTimezoneAndLocaltime env.tz (owTzOffset env.ow)))
    | none =>
      match openMeteoFallback env.om la lo with
      | Except.error _ => ApiResult.error "Weather service unavailable at the moment." 502
      | Except.ok o =>
        ApiResult.ok (mergeTz (applySearchNameFallback search_name o)
          (getTimezoneAndLocaltime env.tz none))
  | _, _ => ApiResult.error "lat and lon required" 400

/-- Projection: the weather field of an ok record. -/
def okWeather : ApiResult → Option (Option String)
  | ApiResult.ok o => some o.weather
  | ApiResult.error _ _ => none

/-- Projection: the name field of an ok record. -/
def okName : ApiResult → Option (Option String)
  | ApiResult.ok o => some o.name
  | ApiResult.error _ _ => none

/-- The outcome shape claimed for the weather resolution: an ok record with
a present weather description, or exactly the 502 service-unavailable
error. -/
def weatherOkOrUnavailable (r : ApiResult) : Prop :=
  match r with
  | ApiResult.ok o => o.weather.isSome = true
  | ApiResult.error msg status =>
    msg = "Weather service unavailable at the moment." ∧ status = 502

/-- A timezone environment whose provider request raises. -/
def tzEnvDead : TzEnv :=
  ⟨TzProviderResult.failure, fun _ => none, fun _ => ""⟩

/-- A fallback environment with forecast data but both reverse calls
failing. -/
def omEnvBare : OMEnv :=
  { wx := Except.ok { weather_code := some 3, temperature_2m := none,
                      relative_humidity_2m := none, wind_speed_10m := none },
    nominatim := NomRevResult.failure,
    omReverse := OMRevResult.failure }

/-- C1's failing scenario: a configured key and an ok primary response
whose payload has no `weather` key (so the description defaults to null). -/
def c1Env : WeatherEnv :=
  { apiKey := "k",
    ow := OWResult.ok { name := some "Gurugram", weather := none, coord := none,
                        temp := none, humidity := none, wind_speed := none,
                        country := some "IN", timezone := none },
    om := omEnvBare, tz := tzEnvDead }

/-- A benign environment for C1's witness: no key, fallback succeeds. -/
def c1wEnv : WeatherEnv :=
  { apiKey := "", ow := OWResult.failure, om := omEnvBare, tz := tzEnvDead }

/-- C5's failing scenario: no key (fallback path), both reverse calls fail
(null canonical name), and a plain query name. -/
def c5Env : WeatherEnv :=
  { apiKey := "", ow := OWResult.failure, om := omEnvBare, tz := tzEnvDead }

/-- C3's failing scenario: Nominatim unavailable, Open-Meteo reverse ok
with a first entry that carries both a name and a country code. -/
def c3OM : OMEnv :=
  { wx := Except.ok { weather_code := some 3, temperature_2m := none,
                      relative_humidity_2m := none, wind_speed_10m := none },
    nominatim := NomRevResult.failure,
    omReverse := OMRevResult.ok
      [{ name := some "Gurugram", admin1 := some "Haryana", admin2 := none,
         admin3 := none, country_code := some "IN", country := some "India" }] }

/-- An all-null record, for witnesses. -/
def emptyRecord : OutRecord :=
  { name := none, coord := none, weather := none, temp_c := none, humidity := none,
    wind_speed := none, country := none, timezone := none, local_time := none,
    utc_offset_seconds := none }

/-! ## Forward geocoding (`api_geocode`, app.py lines 315-528) -/

/-- The fixed keyword set classifying a query as region-specific
(lines 327-331). -/
def indianTerms : List String :=
  ["sector", "block", "phase", "colony", "nagar", "vihar", "delhi",
   "gurgaon", "gurugram", "faridabad", "noida", "ghaziabad", "haryana",
   "punjab", "uttar pradesh", "up", "india"]

/-- `is_indian_specific`: any of the fixed terms occurs (as a substring) in
the lowercased query. -/
def isIndianSpecific (q : String) : Bool :=
  indianTerms.any (fun t => strHasSub (strLower q) t)

/-- One Nominatim search result item: the parsed coordinates (`none` models
`float(...)` raising), the top-level `name`/`display_name`, and the used
address fields. -/
structure NomSearchItem where
  latlon : Option (ℚ × ℚ)
  name : Option String
  display_name : Option String
  suburb : Option String
  neighbourhood : Option String
  quarter : Option String
  city : Option String
  town : Option String
  state : Option String
  country_code : Option String
  country : Option String
deriving DecidableEq

/-- A Nominatim search request outcome; `failure` models an exception,
which in `api_geocode` propagates to the outer handler (502). -/
inductive NomSearchResult
  | failure
  | notOk
  | ok (arr : List NomSearchItem)

/-- One Open-Meteo forward-geocoding result item. -/
structure OMSearchItem where
  name : Option String
  admin1 : Option String
  admin2 : Option String
  admin3 : Option String
  country_code : Option String
  country : Option String
  latitude : Option ℚ
  longitude : Option ℚ
deriving DecidableEq

/-- An Open-Meteo search request outcome. -/
inductive OMSearchResult
  | failure
  | notOk
  | ok (results : List OMSearchItem)

/-- Environment of `api_geocode`: region-biased Nominatim, Open-Meteo
search (also used by the retry ladder), and unrestricted Nominatim, each a
function of the query string sent. -/
structure GeoEnv where
  nomSearchIN : String → NomSearchResult
  omSearch : String → OMSearchResult
  nomSearchGen : String → NomSearchResult

/-- Tags naming the four request sites of `api_geocode`, used to record the
sequence of attempted (site, query) requests. -/
inductive GProv
  | nomIN
  | om
  | nomGen
  | omRetry
deriving DecidableEq

/-- An autocomplete suggestion entry. -/
structure Suggestion where
  name : Option String
  lat : Option ℚ
  lon : Option ℚ
  country : Option String
  source : String
deriving DecidableEq

/-- A geocoding outcome: a single best candidate, a suggestion list, or an
error body with its status. -/
inductive GeoResult
  | single (name : Option String) (lat lon : Option ℚ) (country : Option String)
      (source : String)
  | suggestions (items : List Suggestion)
  | error (msg : String) (status : Nat)
deriving DecidableEq

/-- Suggestion label of the region-biased branch (lines 345-367). -/
def nomSuggestion (q : String) (item : NomSearchItem) : Suggestion :=
  let ll := item.latlon
  let p1 := collectFirst [item.suburb, item.neighbourhood, item.name]
  let p2 := p1 ++ collectFirst [item.city, item.town]
  let p3 := p2 ++
    (match item.state with
     | some st => if st ≠ "" then [st] else []
     | none => [])
  let joined := joinComma (dedupAux [] (p3.filter (fun p => p ≠ "")))
  let label := if joined ≠ "" then joined else pyOrStr item.display_name q
  { name := some label, lat := ll.map Prod.fst, lon := ll.map Prod.snd,
    country := pyOrOpt item.country_code item.country, source := "nominatim" }

/-- Single-result record of the region-biased branch (lines 370-410). -/
def nomINSingle (q : String) (first : NomSearchItem) : GeoResult :=
  let ll := first.latlon
  let p1 := collectFirst [first.suburb, first.neighbourhood, first.quarter, first.name]
  let p2 := p1 ++ collectFirst [first.city, first.town]
  let p3 :=
    match first.state with
    | some st => if st ≠ "" ∧ p2.length < 3 then p2 ++ [st] else p2
    | none => p2
  let p4 :=
    if p3 = [] then
      (let disp := pyOrStr first.display_name (pyOrStr first.name q)
       if disp ≠ "" ∧ strContainsChar disp ',' then
         ((pySplitComma disp).map pyStrip).take 3
       else [])
    else p3
  let final_name :=
    if p4 ≠ [] then joinComma (dedupAux [] (p4.filter (fun p => p ≠ ""))) else q
  GeoResult.single (some final_name) (ll.map Prod.fst) (ll.map Prod.snd)
    (pyOrOpt first.country_code first.country) "nominatim"

/-- Shared Open-Meteo label composition (lines 424-433 and 439-448 and
508-517). -/
def omLabel (first : OMSearchItem) : Option String :=
  let p1 :=
    match first.name with
    | some n => if n ≠ "" then [n] else []
    | none => []
  let p2 := p1 ++ collectFirst [first.admin3, first.admin2]
  let p3 :=
    match first.admin1 with
    | some ad => if ad ≠ "" ∧ ad ∉ p2 then p2 ++ [ad] else p2
    | none => p2
  if p3 ≠ [] then some (joinComma (dedupAux [] p3)) else first.name

/-- Single-result record of the Open-Meteo branches. -/
def omSingleOut (first : OMSearchItem) (src : String) : GeoResult :=
  GeoResult.single (omLabel first) first.latitude first.longitude
    (pyOrOpt first.country_code first.country) src

/-- Suggestion entry of the Open-Meteo branch. -/
def omSuggestion (first : OMSearchItem) : Suggestion :=
  { name := omLabel first, lat := first.latitude, lon := first.longitude,
    country := pyOrOpt first.country_code first.country, source := "open-meteo" }

/-- Single-result record of the unrestricted Nominatim fallback
(lines 467-489): trims the display name to 3 parts, or 4 when the query
mentions a sector or block. -/
def nomGenSingle (q : String) (first : NomSearchItem) : GeoResult :=
  let ll := first.latlon
  let disp0 := pyOrStr first.display_name (pyOrStr first.name q)
  let disp :=
    if disp0 ≠ "" ∧ strContainsChar disp0 ',' then
      (let parts := (pySplitComma disp0).map pyStrip
       if strHasSub (strLower q) "sector" || strHasSub (strLower q) "block" then
         joinComma (parts.take 4)
       else joinComma (parts.take 3))
    else disp0
  GeoResult.single (some disp) (ll.map Prod.fst) (ll.map Prod.snd)
    (pyOrOpt first.country_code first.country) "nominatim"

/-- The suffix retry ladder (lines 491-525): take each augmented query in
order; an exception is the outer 502; a non-ok or empty response continues;
the first nonempty response wins. Returns the result (if any) with the
attempted (site, query) trace. -/
def geoRetryLoop (env : GeoEnv) : List String → Option GeoResult × List (GProv × String)
  | [] => (none, [])
  | tq :: rest =>
    match env.omSearch tq with
    | OMSearchResult.failure =>
      (some (GeoResult.error "Geocoding failed" 502), [(GProv.omRetry, tq)])
    | OMSearchResult.notOk =>
      let r := geoRetryLoop env rest
      (r.1, (GProv.omRetry, tq) :: r.2)
    | OMSearchResult.ok [] =>
      let r := geoRetryLoop env rest
      (r.1, (GProv.omRetry, tq) :: r.2)
    | OMSearchResult.ok (first :: _) =>
      (some (omSingleOut first "open-meteo-retry"), [(GProv.omRetry, tq)])

/-- `api_geocode` (lines 315-528), paired with the ordered trace of
(request site, query) attempts it makes.  Region-specific queries go to the
region-biased provider first; then Open-Meteo; then (only for
non-region-specific queries) unrestricted Nominatim and the two-suffix
retry ladder; exhaustion is the 404 no-results error.  The autocomplete
flag models the already-parsed request parameter. -/
def apiGeocode (env : GeoEnv) (q0 : String) (autocomplete : Bool) :
    GeoResult × List (GProv × String) :=
  let q := pyStrip q0
  if q = "" then (GeoResult.error "Missing query parameter q" 400, [])
  else
    let isIS := isIndianSpecific q
    let s1 : Option GeoResult × List (GProv × String) :=
      if isIS then
        match env.nomSearchIN q with
        | NomSearchResult.failure =>
          (some (GeoResult.error "Geocoding failed" 502), [(GProv.nomIN, q)])
        | NomSearchResult.notOk => (none, [(GProv.nomIN, q)])
        | NomSearchResult.ok [] => (none, [(GProv.nomIN, q)])
        | NomSearchResult.ok (first :: rest) =>
          if autocomplete then
            (some (GeoResult.suggestions
              (((first :: rest).take 8).map (nomSuggestion q))), [(GProv.nomIN, q)])
          else (some (nomINSingle q first), [(GProv.nomIN, q)])
      else (none, [])
    match s1 with
    | (some res, t1) => (res, t1)
    | (none, t1) =>
      let s2 : Option GeoResult × List (GProv × String) :=
        match env.omSearch q with
        | OMSearchResult.failure =>
          (some (GeoResult.error "Geocoding failed" 502), [(GProv.om, q)])
        | OMSearchResult.notOk => (none, [(GProv.om, q)])
        | OMSearchResult.ok [] => (none, [(GProv.om, q)])
        | OMSearchResult.ok (first :: rest) =>
          if autocomplete then
            (some (GeoResult.suggestions (((first :: rest).take 8).map omSuggestion)),
             [(GProv.om, q)])
          else (some (omSingleOut first "open-meteo"), [(GProv.om, q)])
      match s2 with
      | (some res, t2) => (res, t1 ++ t2)
      | (none, t2) =>
        let s3 : Option GeoResult × List (GProv × String) :=
          if isIS = false then
            match env.nomSearchGen q with
            | NomSearchResult.failure =>
              (some (GeoResult.error "Geocoding failed" 502), [(GProv.nomGen, q)])
            | NomSearchResult.notOk => (none, [(GProv.nomGen, q)])
            | NomSearchResult.ok [] => (none, [(GProv.nomGen, q)])
            | NomSearchResult.ok (first :: _) =>
              (some (nomGenSingle q first), [(GProv.nomGen, q)])
          else (none, [])
        match s3 with
        | (some res, t3) => (res, t1 ++ t2 ++ t3)
        | (none, t3) =>
          if isIS = false ∧ q ≠ "" ∧ strEndsWith (strLower q) "india" = false then
            let r4 := geoRetryLoop env [q ++ ", India", q ++ ", Kupwara, India"]
            match r4.1 with
            | some res => (res, t1 ++ t2 ++ t3 ++ r4.2)
            | none => (GeoResult.error "No results" 404, t1 ++ t2 ++ t3 ++ r4.2)
          else (GeoResult.error "No results" 404, t1 ++ t2 ++ t3)

/-- C2's scenario: every provider answers 200 with zero results. -/
def c2Env : GeoEnv :=
  { nomSearchIN := fun _ => NomSearchResult.ok [],
    omSearch := fun _ => OMSearchResult.ok [],
    nomSearchGen := fun _ => NomSearchResult.ok [] }

/-- The characters that can appear in the decimal rendering of an integer. -/
def numChars : List Char := ['-', '0', '1', '2', '3', '4', '5', '6', '7', '8', '9']

/-- The eight categorical classes of the classifier. -/
def soundClasses : List String :=
  ["storm", "rain", "snow", "fog", "sunny", "cloudy", "wind", "ambient"]

-- ===== Theorems below this line =====

/-! ## Lemmas about the string primitives -/

theorem headMatch_subset {p l : List Char} (h : headMatch p l = true) :
    ∀ c ∈ p, c ∈ l := by
  induction p generalizing l with
  | nil => intro c hc; cases hc
  | cons a p ih =>
    cases l with
    | nil => simp [headMatch] at h
    | cons b t =>
      simp only [headMatch, Bool.and_eq_true, beq_iff_eq] at h
      intro c hc
      rcases List.mem_cons.mp hc with rfl | hc
      · exact h.1 ▸ List.mem_cons_self _ _
      · exact List.mem_cons_of_mem _ (ih h.2 c hc)

theorem occursIn_subset {p l : List Char} (h : occursIn p l = true) :
    ∀ c ∈ p, c ∈ l := by
  induction l with
  | nil =>
    intro c hc
    cases p with
    | nil => cases hc
    | cons a q => simp [occursIn, headMatch] at h
  | cons b t ih =>
    simp only [occursIn, Bool.or_eq_true] at h
    rcases h with h | h
    · exact headMatch_subset h
    · intro c hc; exact List.mem_cons_of_mem _ (ih h c hc)

theorem strHasSub_eq_false {s pat : String} (hs : ∀ c ∈ s.data, c ∈ numChars)
    {c : Char} (hc : c ∈ pat.data) (hnc : c ∉ numChars) :
    strHasSub s pat = false := by
  by_contra h
  rw [Bool.not_eq_false] at h
  exact hnc (hs c (occursIn_subset h c hc))

theorem anyKw_eq_false {s : String} {kws : List String}
    (hs : ∀ c ∈ s.data, c ∈ numChars)
    (hk : ∀ k ∈ kws, ∃ c ∈ k.data, c ∉ numChars) :
    anyKw s kws = false := by
  rw [anyKw, List.any_eq_false]
  intro k hkk
  obtain ⟨c, hc, hnc⟩ := hk k hkk
  simp [strHasSub_eq_false hs hc hnc]

theorem dropWs_eq_self {l : List Char} (h : ∀ c ∈ l, c.isWhitespace = false) :
    dropWs l = l := by
  cases l with
  | nil => rfl
  | cons a t => simp [dropWs, h a (List.mem_cons_self _ _)]

theorem stripWs_eq_self {l : List Char} (h : ∀ c ∈ l, c.isWhitespace = false) :
    stripWs l = l := by
  rw [stripWs, dropWs_eq_self h,
    dropWs_eq_self (fun c hc => h c (List.mem_reverse.mp hc)), List.reverse_reverse]

theorem dropWs_eq_nil {l : List Char} (h : ∀ c ∈ l, c.isWhitespace = true) :
    dropWs l = [] := by
  induction l with
  | nil => rfl
  | cons a t ih =>
    simp only [dropWs, h a (List.mem_cons_self _ _), if_true]
    exact ih fun c hc => h c (List.mem_cons_of_mem _ hc)

theorem stripWs_eq_nil {l : List Char} (h : ∀ c ∈ l, c.isWhitespace = true) :
    stripWs l = [] := by
  rw [stripWs, dropWs_eq_nil h]
  rfl

theorem dropWs_nil_all_ws {l : List Char} (h : dropWs l = []) :
    ∀ c ∈ l, c.isWhitespace = true := by
  induction l with
  | nil => intro c hc; cases hc
  | cons a t ih =>
    by_cases ha : a.isWhitespace = true
    · rw [dropWs, if_pos ha] at h
      intro c hc
      rcases List.mem_cons.mp hc with rfl | hc
      · exact ha
      · exact ih h c hc
    · rw [dropWs, if_neg ha] at h
      cases h

theorem dropWs_all_imp {l : List Char} (h : ∀ c ∈ dropWs l, c.isWhitespace = true) :
    ∀ c ∈ l, c.isWhitespace = true := by
  induction l with
  | nil => intro c hc; cases hc
  | cons a t ih =>
    by_cases ha : a.isWhitespace = true
    · rw [dropWs, if_pos ha] at h
      intro c hc
      rcases List.mem_cons.mp hc with rfl | hc
      · exact ha
      · exact ih h c hc
    · rw [dropWs, if_neg ha] at h
      exact absurd (h a (List.mem_cons_self _ _)) ha

theorem stripWs_nil_all_ws {l : List Char} (h : stripWs l = []) :
    ∀ c ∈ l, c.isWhitespace = true := by
  rw [stripWs, List.reverse_eq_nil_iff] at h
  have h2 : ∀ c ∈ (dropWs l).reverse, c.isWhitespace = true := dropWs_nil_all_ws h
  exact dropWs_all_imp fun c hc => h2 c (List.mem_reverse.mpr hc)

theorem string_mk_eq_empty_iff (l : List Char) : (⟨l⟩ : String) = "" ↔ l = [] := by
  constructor
  · intro h
    have := congrArg String.data h
    simpa using this
  · intro h; subst h; rfl

theorem toLower_of_ws {c : Char} (h : c.isWhitespace = true) : Char.toLower c = c := by
  simp only [Char.isWhitespace, Bool.or_eq_true, decide_eq_true_eq] at h
  rcases h with ((rfl | rfl) | rfl) | rfl <;> decide

/-! ## Lemmas about decimal renderings -/

theorem digitChar_mem : ∀ d : Nat, d < 10 → Nat.digitChar d ∈ numChars := by decide

theorem natDecimal_chars (n : Nat) : ∀ c ∈ (natDecimal n).data, c ∈ numChars := by
  intro c hc
  rw [natDecimal] at hc
  by_cases h0 : n = 0
  · rw [if_pos h0] at hc
    simp only [show ("0" : String).data = ['0'] from rfl] at hc
    rcases List.mem_singleton.mp hc with rfl
    decide
  · rw [if_neg h0] at hc
    simp only [List.mem_reverse, List.mem_map] at hc
    obtain ⟨d, hd, rfl⟩ := hc
    exact digitChar_mem d (Nat.digits_lt_base (by norm_num) hd)

theorem natDecimal_ne_nil (n : Nat) : (natDecimal n).data ≠ [] := by
  rw [natDecimal]
  by_cases h0 : n = 0
  · rw [if_pos h0]; simp [show ("0" : String).data = ['0'] from rfl]
  · rw [if_neg h0]
    simp only [ne_eq, List.reverse_eq_nil_iff, List.map_eq_nil_iff]
    exact Nat.digits_ne_nil_iff_ne_zero.mpr h0

theorem intDecimal_chars (k : Int) : ∀ c ∈ (intDecimal k).data, c ∈ numChars := by
  intro c hc
  cases k with
  | ofNat m => exact natDecimal_chars m c hc
  | negSucc m =>
    simp only [intDecimal] at hc
    rcases List.mem_cons.mp hc with rfl | hc
    · decide
    · exact natDecimal_chars (m + 1) c hc

theorem intDecimal_ne_nil (k : Int) : (intDecimal k).data ≠ [] := by
  cases k with
  | ofNat m => exact natDecimal_ne_nil m
  | negSucc m => simp [intDecimal]

/-! ## Classifier lemmas -/

theorem strLower_chars {s : String} (hs : ∀ c ∈ s.data, c ∈ numChars) :
    ∀ c ∈ (strLower s).data, c ∈ numChars := by
  intro c hc
  simp only [strLower, List.mem_map] at hc
  obtain ⟨a, ha, rfl⟩ := hc
  have hmem := hs a ha
  have : ∀ x ∈ numChars, Char.toLower x ∈ numChars := by decide
  exact this a hmem

theorem numChars_not_ws : ∀ c ∈ numChars, c.isWhitespace = false := by decide

theorem textualSound_numeric {s : String} (h1 : ∀ c ∈ s.data, c ∈ numChars)
    (h2 : s.data ≠ []) : textualSound s = "ambient" := by
  have hw : ∀ c ∈ (strLower s).data, c ∈ numChars := strLower_chars h1
  have hnws : ∀ c ∈ (strLower s).data, c.isWhitespace = false :=
    fun c hc => numChars_not_ws c (hw c hc)
  have hne : (strLower s).data ≠ [] := by
    simp only [strLower, ne_eq, List.map_eq_nil_iff]
    exact h2
  have hstrip : ¬ pyStrip (strLower s) = "" := by
    rw [pyStrip, string_mk_eq_empty_iff, stripWs_eq_self hnws]
    exact hne
  have hk : ∀ kws : List String,
      (∀ k ∈ kws, ∃ c ∈ k.data, c ∉ numChars) → anyKw (strLower s) kws = false :=
    fun kws h => anyKw_eq_false hw h
  have hA := hk ["thunder", "storm", "tornado"] (by decide)
  have hB := hk ["hail"] (by decide)
  have hC := hk ["rain", "drizzle", "shower", "precipitation"] (by decide)
  have hD := hk ["snow", "sleet", "blizzard"] (by decide)
  have hE := hk ["fog", "mist", "haze", "smoke", "dust"] (by decide)
  have hF := hk ["wind", "breezy", "gust"] (by decide)
  have hG := hk ["clear", "sunny"] (by decide)
  have hH := hk ["cloud", "overcast", "broken", "scattered"] (by decide)
  simp [textualSound, hstrip, hA, hB, hC, hD, hE, hF, hG, hH]

theorem getWeatherSoundType_pint (code : Int) :
    getWeatherSoundType (WeatherArg.base (PyVal.pint code)) =
      match soundOfCode code with
      | some s => s
      | none => textualSound (intDecimal code) := by
  cases h : soundOfCode code <;>
    simp [getWeatherSoundType, pyIntCoe, pyStr, h]

theorem soundOfCode_mem {code : Int} {s : String} (h : soundOfCode code = some s) :
    s ∈ soundClasses := by
  rw [soundOfCode] at h
  repeat' split at h
  all_goals cases h
  all_goals decide

theorem soundOfCode_ne_wind (code : Int) : soundOfCode code ≠ some "wind" := by
  intro h
  rw [soundOfCode] at h
  repeat' split at h
  all_goals exact absurd h (by decide)

theorem textualSound_mem (s : String) : textualSound s ∈ soundClasses := by
  rw [textualSound]
  repeat' split
  all_goals decide

theorem textualSound_of_blank {s : String} (h : pyStrip (strLower s) = "") :
    textualSound s = "ambient" := by
  simp [textualSound, h]

theorem textualSound_intDecimal (k : Int) : textualSound (intDecimal k) = "ambient" :=
  textualSound_numeric (intDecimal_chars k) (intDecimal_ne_nil k)

theorem classify_val_mem (v : PyVal) :
    (match pyIntCoe v with
     | some code =>
       match soundOfCode code with
       | some s => s
       | none => textualSound (pyStr v)
     | none => textualSound (pyStr v)) ∈ soundClasses := by
  cases hi : pyIntCoe v with
  | none => exact textualSound_mem (pyStr v)
  | some code =>
    show (match soundOfCode code with
          | some s => s
          | none => textualSound (pyStr v)) ∈ soundClasses
    cases hc : soundOfCode code with
    | none => exact textualSound_mem (pyStr v)
    | some s => exact soundOfCode_mem hc

/-! ## Claim theorems: the weather classifier -/

/-- C6: the numeric path of the classifier maps code 95 to storm, code 3 to
cloudy and code 800 to sunny, and any integer code belonging to no range of
either coding scheme (OpenWeather ids, WMO codes) classifies as the
ambient default: its decimal rendering carries no textual keyword hint. -/
theorem C6_numeric_classification :
    getWeatherSoundType (WeatherArg.base (PyVal.pint 95)) = "storm" ∧
    getWeatherSoundType (WeatherArg.base (PyVal.pint 3)) = "cloudy" ∧
    getWeatherSoundType (WeatherArg.base (PyVal.pint 800)) = "sunny" ∧
    ∀ code : Int, soundOfCode code = none →
      getWeatherSoundType (WeatherArg.base (PyVal.pint code)) = "ambient" := by
  refine ⟨by decide, by decide, by decide, ?_⟩
  intro code h
  rw [getWeatherSoundType_pint, h]
  exact textualSound_intDecimal code

/-- C6 witness: code 42 belongs to no numeric range and classifies as
ambient. -/
theorem C6_numeric_classification_witness :
    getWeatherSoundType (WeatherArg.base (PyVal.pint 42)) = "ambient" :=
  C6_numeric_classification.2.2.2 42 (by decide)

/-- C9: the classifier is total over its accepted shapes: null input, blank
strings and dicts without any of the recognized keys (`id`, `weather_code`,
`code`, `description`, `weather`) classify as ambient, and every input
classifies as one of the eight fixed category strings. -/
theorem C9_classifier_totality :
    getWeatherSoundType (WeatherArg.base PyVal.pnone) = "ambient" ∧
    (∀ s : String, pyStrip s = "" →
      getWeatherSoundType (WeatherArg.base (PyVal.pstr s)) = "ambient") ∧
    (∀ d : List (String × PyVal),
      d.lookup "id" = none → d.lookup "weather_code" = none →
      d.lookup "code" = none → d.lookup "description" = none →
      d.lookup "weather" = none →
      getWeatherSoundType (WeatherArg.dict d) = "ambient") ∧
    (∀ w : WeatherArg, getWeatherSoundType w ∈ soundClasses) := by
  refine ⟨by decide, ?_, ?_, ?_⟩
  · intro s hs
    rw [pyStrip, string_mk_eq_empty_iff] at hs
    have hint : pyIntOfString s = none := by
      rw [pyIntOfString, hs]
    have hblank : pyStrip (strLower s) = "" := by
      rw [pyStrip, string_mk_eq_empty_iff]
      apply stripWs_eq_nil
      intro c hc
      simp only [strLower, List.mem_map] at hc
      obtain ⟨a, ha, rfl⟩ := hc
      have haw := stripWs_nil_all_ws hs a ha
      rw [toLower_of_ws haw]
      exact haw
    simp only [getWeatherSoundType, pyIntCoe, hint]
    exact textualSound_of_blank hblank
  · intro d h1 h2 h3 h4 h5
    have he : extractFromDict d = PyVal.pstr "" := by
      simp [extractFromDict, containsKey, dictGetV, h1, h2, h3, h4, h5, pyOrV, pyTruthyV]
    simp only [getWeatherSoundType, he]
    decide
  · intro w
    cases w with
    | dict d => exact classify_val_mem (extractFromDict d)
    | base v =>
      cases v with
      | pnone => decide
      | pint n => exact classify_val_mem (PyVal.pint n)
      | pstr s => exact classify_val_mem (PyVal.pstr s)

/-- C9 witness: a whitespace-only string and a dict with none of the
recognized keys both classify as ambient. -/
theorem C9_classifier_totality_witness :
    getWeatherSoundType (WeatherArg.base (PyVal.pstr "   ")) = "ambient" ∧
    getWeatherSoundType (WeatherArg.dict [("humidity", PyVal.pint 40)]) = "ambient" :=
  ⟨C9_classifier_totality.2.1 "   " (by decide),
   C9_classifier_totality.2.2.1 [("humidity", PyVal.pint 40)]
     (by decide) (by decide) (by decide) (by decide) (by decide)⟩

/-- C10: no numeric code ever classifies as wind: neither range table
contains the wind class, and for unmapped codes the textual path sees only
a digit string. Wind is reachable only through the textual keywords. -/
theorem C10_wind_unreachable :
    ∀ code : Int,
      getWeatherSoundType (WeatherArg.base (PyVal.pint code)) ≠ "wind" ∧
      soundOfCode code ≠ some "wind" := by
  intro code
  refine ⟨?_, soundOfCode_ne_wind code⟩
  rw [getWeatherSoundType_pint]
  cases h : soundOfCode code with
  | none =>
    rw [textualSound_intDecimal code]
    decide
  | some s =>
    intro heq
    simp only at heq
    subst heq
    exact soundOfCode_ne_wind code h

/-! ## Claim theorems: timezone resolution -/

/-- C7: when the provider call fails entirely and the caller supplies a
fallback offset of 19800 seconds, the result keeps that offset, has no zone
name, and its local time is computed from the fixed offset 19800 s, which
is exactly the +05:30 offset. -/
theorem C7_timezone_fallback (env : TzEnv) (h : env.provider = TzProviderResult.failure) :
    getTimezoneAndLocaltime env (some 19800) =
      ⟨none, some (env.fixedOffsetTime 19800), some 19800⟩ ∧
      (19800 : Int) = 5 * 3600 + 30 * 60 := by
  constructor
  · rw [getTimezoneAndLocaltime, h]
    simp [(by decide : fixedOffsetValid 19800 = true)]
  · norm_num

/-- C7 witness: a concrete environment whose provider request raises. -/
theorem C7_timezone_fallback_witness :
    getTimezoneAndLocaltime
        ⟨TzProviderResult.failure, fun _ => none, fun off => intDecimal off⟩
        (some 19800) =
      ⟨none, some (intDecimal 19800), some 19800⟩ :=
  (C7_timezone_fallback
    ⟨TzProviderResult.failure, fun _ => none, fun off => intDecimal off⟩ rfl).1

/-- C8: the resolution returns the all-null TimezoneInfo exactly when no
usable fallback offset was supplied (absent, or rejected by the `timezone`
constructor with `ValueError`) and every provider tier failed (request
failure, non-ok status, or a body with no usable offset and no workable
zone name); the all-null record is an ordinary value, not an error. -/
theorem C8_timezone_all_null_iff (env : TzEnv) (fb : Option Int) :
    getTimezoneAndLocaltime env fb = ⟨none, none, none⟩ ↔
      tzFallbackFailed fb = true ∧ tzProviderFailed env = true := by
  cases hp : env.provider with
  | failure =>
    cases fb with
    | none => simp [getTimezoneAndLocaltime, tzProviderFailed, tzFallbackFailed, hp]
    | some o =>
      by_cases hv : fixedOffsetValid o = true <;>
        simp [getTimezoneAndLocaltime, tzProviderFailed, tzFallbackFailed, hp, hv]
  | notOk =>
    cases fb with
    | none => simp [getTimezoneAndLocaltime, tzProviderFailed, tzFallbackFailed, hp]
    | some o =>
      by_cases hv : fixedOffsetValid o = true <;>
        simp [getTimezoneAndLocaltime, tzProviderFailed, tzFallbackFailed, hp, hv]
  | ok tzname utc_off =>
    cases tzname with
    | none =>
      cases utc_off with
      | none =>
        cases fb with
        | none => simp [getTimezoneAndLocaltime, tzProviderFailed, tzFallbackFailed, hp]
        | some o =>
          by_cases hv : fixedOffsetValid o = true <;>
            simp [getTimezoneAndLocaltime, tzProviderFailed, tzFallbackFailed, hp, hv]
      | some o2 =>
        by_cases hv2 : fixedOffsetValid o2 = true
        · simp [getTimezoneAndLocaltime, tzProviderFailed, tzFallbackFailed, hp, hv2]
        · cases fb with
          | none =>
            simp [getTimezoneAndLocaltime, tzProviderFailed, tzFallbackFailed, hp, hv2]
          | some o =>
            by_cases hv : fixedOffsetValid o = true <;>
              simp [getTimezoneAndLocaltime, tzProviderFailed, tzFallbackFailed, hp, hv2, hv]
    | some tn =>
      by_cases htn : tn = ""
      · subst htn
        cases utc_off with
        | none =>
          cases fb with
          | none => simp [getTimezoneAndLocaltime, tzProviderFailed, tzFallbackFailed, hp]
          | some o =>
            by_cases hv : fixedOffsetValid o = true <;>
              simp [getTimezoneAndLocaltime, tzProviderFailed, tzFallbackFailed, hp, hv]
        | some o2 =>
          by_cases hv2 : fixedOffsetValid o2 = true
          · simp [getTimezoneAndLocaltime, tzProviderFailed, tzFallbackFailed, hp, hv2]
          · cases fb with
            | none =>
              simp [getTimezoneAndLocaltime, tzProviderFailed, tzFallbackFailed, hp, hv2]
            | some o =>
              by_cases hv : fixedOffsetValid o = true <;>
                simp [getTimezoneAndLocaltime, tzProviderFailed, tzFallbackFailed, hp,
                  hv2, hv]
      · cases hz : env.zoneLocalTime tn with
        | some loc =>
          simp [getTimezoneAndLocaltime, tzProviderFailed, tzFallbackFailed, hp, htn, hz]
        | none =>
          cases utc_off with
          | none =>
            cases fb with
            | none =>
              simp [getTimezoneAndLocaltime, tzProviderFailed, tzFallbackFailed, hp,
                htn, hz]
            | some o =>
              by_cases hv : fixedOffsetValid o = true <;>
                simp [getTimezoneAndLocaltime, tzProviderFailed, tzFallbackFailed, hp,
                  htn, hz, hv]
          | some o2 =>
            by_cases hv2 : fixedOffsetValid o2 = true
            · simp [getTimezoneAndLocaltime, tzProviderFailed, tzFallbackFailed, hp,
                htn, hz, hv2]
            · cases fb with
              | none =>
                simp [getTimezoneAndLocaltime, tzProviderFailed, tzFallbackFailed, hp,
                  htn, hz, hv2]
              | some o =>
                by_cases hv : fixedOffsetValid o = true <;>
                  simp [getTimezoneAndLocaltime, tzProviderFailed, tzFallbackFailed, hp,
                    htn, hz, hv2, hv]

/-! ## Lemmas about the weather resolution -/

theorem mergeTz_weather (o : OutRecord) (t : TimezoneInfo) :
    (mergeTz o t).weather = o.weather := rfl

theorem applySearchNameFallback_weather (sn : Option String) (o : OutRecord) :
    (applySearchNameFallback sn o).weather = o.weather := by
  cases sn with
  | none => rfl
  | some s =>
    rw [applySearchNameFallback]
    split
    · split
      · rfl
      · rfl
    · rfl

theorem primaryRecord_weather {env : WeatherEnv} {sn : Option String} {o : OutRecord}
    (h : primaryRecord env sn = some o) :
    ∃ p, env.ow = OWResult.ok p ∧ owDesc p = Except.ok o.weather := by
  rw [primaryRecord] at h
  split at h
  · split at h
    · rename_i payload heq
      split at h
      · cases h
      · rename_i desc heq2
        injection h with h
        subst h
        exact ⟨payload, heq, heq2⟩
    · cases h
  · cases h

theorem openMeteoFallback_weather {env : OMEnv} {la lo : ℚ} {o : OutRecord}
    (h : openMeteoFallback env la lo = Except.ok o) : o.weather.isSome = true := by
  rw [openMeteoFallback] at h
  cases hw : env.wx with
  | error e => rw [hw] at h; cases h
  | ok cur =>
    rw [hw] at h
    injection h with h
    subst h
    rfl

/-! ## Claim theorems: weather resolution -/

/-- C1 counterexample: with a configured key, a 200 primary response whose
payload has no weather description yields an ok record with a null weather
field and no error, refuting the claim over all response combinations. -/
theorem C1_counterexample :
    okWeather (apiWeather c1Env (some 10) (some 20) none) = some none := rfl

/-- C1 (amended): for valid coordinates, whenever any successful primary
payload actually carries a weather description (the claim's unrestricted
quantification over payloads fails on payloads without one), the resolution
returns an ok record with a present description or exactly the 502
service-unavailable error; the secondary path always yields a present
description via the code-to-text table's default. -/
theorem C1_weather_or_unavailable (env : WeatherEnv) (la lo : ℚ) (sn : Option String)
    (hok : ∀ p, env.ow = OWResult.ok p → owDesc p ≠ Except.ok none) :
    weatherOkOrUnavailable (apiWeather env (some la) (some lo) sn) := by
  rw [apiWeather]
  cases hp : primaryRecord env sn with
  | some o =>
    obtain ⟨p, hop, hdesc⟩ := primaryRecord_weather hp
    have hne : o.weather ≠ none := fun hnone => hok p hop (hnone ▸ hdesc)
    have hsome : o.weather.isSome = true := Option.isSome_iff_ne_none.mpr hne
    show weatherOkOrUnavailable (ApiResult.ok
      (mergeTz o (getTimezoneAndLocaltime env.tz (owTzOffset env.ow))))
    simpa [weatherOkOrUnavailable, mergeTz_weather] using hsome
  | none =>
    cases hf : openMeteoFallback env.om la lo with
    | error e => exact ⟨rfl, rfl⟩
    | ok o =>
      have hsome := openMeteoFallback_weather hf
      show weatherOkOrUnavailable (ApiResult.ok
        (mergeTz (applySearchNameFallback sn o) (getTimezoneAndLocaltime env.tz none)))
      simpa [weatherOkOrUnavailable, mergeTz_weather,
        applySearchNameFallback_weather] using hsome

/-- C1 witness: with no key and a working fallback, the record's weather
description is present. -/
theorem C1_weather_or_unavailable_witness :
    weatherOkOrUnavailable (apiWeather c1wEnv (some 1) (some 2) none) :=
  C1_weather_or_unavailable c1wEnv 1 2 none (fun p h => by simp [c1wEnv] at h)

/-- C3: evaluation at the failing input.  Reverse geocoding (28.4595,
77.0266) with Nominatim unavailable and an ok Open-Meteo reverse response
whose first entry carries `name = "Gurugram"` and `country_code = "IN"`
still produces a record whose country (and name) is null: the truthy parts
list is nonempty, so the label composition raises the swallowed `TypeError`
and the country assignment never runs, contradicting the claimed non-null
country. -/
theorem C3_reverse_country_null :
    (openMeteoFallback c3OM (284595 / 10000 : ℚ) (770266 / 10000 : ℚ)).map
        (fun o => (o.name, o.country)) = Except.ok (none, none) ∧
    omRevUpdate c3OM.omReverse none none = (none, none) := ⟨rfl, rfl⟩

/-- C4: with both names present and nonempty, the displayed name is the
query name exactly under the specificity test (locality keyword "sector",
comma, or strictly more whitespace tokens), on the primary path and on the
fallback path; including the two dossier examples. -/
theorem C4_name_disambiguation (sn wn oname : String) (o : OutRecord) :
    (sn ≠ "" → wn ≠ "" →
      disambiguateName (some sn) (some wn) =
        (if prefersQuery sn wn then some sn else some wn)) ∧
    (o.name = some oname → oname ≠ "" → sn ≠ "" →
      applySearchNameFallback (some sn) o =
        (if prefersQuery sn oname then { o with name := some sn } else o)) ∧
    disambiguateName (some "Sector 14, Gurugram") (some "Gurugram") =
      some "Sector 14, Gurugram" ∧
    disambiguateName (some "Paris") (some "Paris, Île-de-France, France") =
      some "Paris, Île-de-France, France" := by
  refine ⟨?_, ?_, by decide, by decide⟩
  · intro hs hw
    simp [disambiguateName, hs, hw]
  · intro h1 h2 h3
    have hd : decide (oname ≠ "") = true := by simp [h2]
    simp only [applySearchNameFallback, h1, if_pos h3, hd, Bool.true_and, prefersQuery]

/-- C4 witness: a concrete instance of the both-present rule. -/
theorem C4_name_disambiguation_witness :
    disambiguateName (some "Sector 56") (some "Gurugram") =
      (if prefersQuery "Sector 56" "Gurugram" then some "Sector 56" else some "Gurugram") :=
  (C4_name_disambiguation "Sector 56" "Gurugram" "x" emptyRecord).1
    (by decide) (by decide)

/-- C5 counterexample: on the fallback path with only the query name
present (reverse geocoding produced no canonical name), the query name
"Paris" is not adopted: the displayed name stays null, refuting the claim
that a uniquely present name is always returned on both paths. -/
theorem C5_counterexample :
    okName (apiWeather c5Env (some 1) (some 2) (some "Paris")) = some none := rfl

/-- C5 (amended): on the primary path a uniquely present (truthy) name is
returned directly; on the fallback path a uniquely present canonical name
is kept, but a uniquely present query name is adopted only when it contains
"sector" (case-insensitively) or a comma — otherwise the null canonical
name is kept. -/
theorem C5_single_name_selection (a b : Option String) (o : OutRecord) (sn : String) :
    (pyTruthyS a = true → pyTruthyS b = false → disambiguateName a b = a) ∧
    (pyTruthyS a = false → pyTruthyS b = true → disambiguateName a b = b) ∧
    (pyTruthyS o.name = false → sn ≠ "" →
      applySearchNameFallback (some sn) o =
        (if strHasSub (strLower sn) "sector" || strContainsChar sn ',' then
          { o with name := some sn } else o)) ∧
    applySearchNameFallback none o = o := by
  refine ⟨?_, ?_, ?_, rfl⟩
  · intro ha hb
    cases a with
    | none => simp [pyTruthyS] at ha
    | some x =>
      simp only [pyTruthyS, decide_eq_true_eq] at ha
      cases b with
      | none => simp [disambiguateName, pyTruthyS, ha]
      | some y =>
        simp only [pyTruthyS, decide_eq_false_iff_not, not_not] at hb
        subst hb
        simp [disambiguateName, pyTruthyS, ha]
  · intro ha hb
    cases b with
    | none => simp [pyTruthyS] at hb
    | some y =>
      simp only [pyTruthyS, decide_eq_true_eq] at hb
      cases a with
      | none => simp [disambiguateName, pyTruthyS]
      | some x =>
        simp only [pyTruthyS, decide_eq_false_iff_not, not_not] at ha
        subst ha
        simp [disambiguateName, pyTruthyS, hb]
  · intro hn hsn
    have hcond : (match o.name with
        | some oname =>
          decide (oname ≠ "") && decide ((pySplitWs sn).length > (pySplitWs oname).length)
        | none => false) = false := by
      cases ho : o.name with
      | none => rfl
      | some x =>
        rw [ho] at hn
        simp only [pyTruthyS, decide_eq_false_iff_not, not_not] at hn
        subst hn
        simp
    simp only [applySearchNameFallback, if_pos hsn, hcond, Bool.or_false]

/-- C5 witness: a uniquely present query name is returned on the primary
path. -/
theorem C5_single_name_selection_witness :
    disambiguateName (some "Paris") none = some "Paris" :=
  (C5_single_name_selection (some "Paris") none emptyRecord "x").1 (by decide) (by decide)

/-! ## Claim theorem: forward geocoding -/

/-- C2: evaluation at the failing input.  Because the substring "up" occurs
inside "kupwara", the term list classifies the query "Kupwara" as
region-specific, so with every provider returning zero results the handler
attempts only the region-biased and general searches for "Kupwara" itself,
skips both the unrestricted-Nominatim fallback and the suffix retry
ladder, and returns the 404 no-results error without ever attempting the
query "Kupwara, India". -/
theorem C2_kupwara_skips_retry :
    isIndianSpecific "Kupwara" = true ∧
    apiGeocode c2Env "Kupwara" false =
      (GeoResult.error "No results" 404,
       [(GProv.nomIN, "Kupwara"), (GProv.om, "Kupwara")]) ∧
    "Kupwara, India" ∉ (apiGeocode c2Env "Kupwara" false).2.map Prod.snd := by
  refine ⟨by decide, by decide, by decide⟩
